import Mathlib

/-!
# Verification of simple-packet-logger core (state store and SOCKS5 probe)

Shallow embedding of the Go sources `internal/core/state.go` and
`internal/probe/socks5.go`, together with theorems settling the frozen
claims about them.

Modelling conventions:
* Go `time.Time` values are modelled as `Nat` timestamps; the zero value is `0`
  (in Go, `time.Now()` is never the zero value, which is reflected by
  positivity hypotheses where a claim needs it).
* Go slices and maps held by the live `State` are modelled with an explicit
  heap of locations, so that claims about aliasing and defensive copies are
  expressible: a slice field is an `Option Nat` location (with `none` standing
  for a nil/empty slice) and a map field is an `Option Nat` location (with
  `none` standing for a nil map).
* Fallible operations return `Option` results mirroring Go's `(value, error)`
  pairs.
-/

namespace PacketLogger

/-! ## Core data model (`internal/core/state.go`) -/

/-- `AgentState` from `state.go`: lifecycle state of the daemon. -/
inductive AgentState where
  | inactive
  | starting
  | active
  | degraded
  | stopping
  | error
deriving DecidableEq, Repr

/-- `ProxyFeatures` from `state.go`. `auth` is "" when unknown. -/
structure ProxyFeatures where
  auth : String := ""
  ipv6 : Bool := false
  udp : Bool := false
deriving DecidableEq, Repr

/-- `TUNSnapshot` from `state.go`. -/
structure TUNSnapshot where
  name : String := ""
  up : Bool := false
  mtu : Int := 0
  localIP : String := ""
  peerIP : String := ""
deriving DecidableEq, Repr

/-- `RouteSnapshot` from `state.go`; the two slice fields are heap locations. -/
structure RouteSnapshot where
  defaultVia : String := ""
  lanCIDRs : Option Nat := none
  bypassHosts : Option Nat := none
  proxyHostRoute : Bool := false
  originalGateway : String := ""
deriving DecidableEq, Repr

/-- `Tun2SocksSnapshot` from `state.go`. -/
structure Tun2SocksSnapshot where
  pid : Int := 0
  uptimeSec : Int := 0
  tcpOk : Bool := false
  udpOk : Bool := false
deriving DecidableEq, Repr

/-- `ProbeSummary` from `state.go` as stored by the state store; the map and
slice fields are heap locations (`none` = nil map / nil slice). -/
structure ProbeRecord where
  reachable : Bool := false
  socksOK : Bool := false
  connectOK : Bool := false
  udpOK : Bool := false
  latenciesMs : Option Nat := none
  features : ProxyFeatures := {}
  lastChecked : Nat := 0
  warnings : Option Nat := none
deriving DecidableEq, Repr

/-- The mutable `State` aggregate from `state.go` (scalar fields plus heap
locations for the slice/map fields). -/
structure State where
  agent : AgentState := .inactive
  startedAt : Nat := 0
  warnings : Option Nat := none
  tun : TUNSnapshot := {}
  routes : RouteSnapshot := {}
  tun2socks : Tun2SocksSnapshot := {}
  lastProbe : ProbeRecord := {}
deriving DecidableEq, Repr

/-- `NewState()` from `state.go`: default-inactive state with nil slices. -/
def NewState : State := {}

/-! ## Heap of slice/map storage

The heap assigns to each location the contents of a string slice
(`strs`) or of a `map[string]int64` (`lats`, as an association list).
`next` is the allocation counter; locations `≥ next` are unallocated. -/

structure Heap where
  next : Nat
  strs : Nat → List String
  lats : Nat → List (String × Int)

/-- Allocate a fresh string-slice cell. -/
def Heap.allocStr (h : Heap) (v : List String) : Nat × Heap :=
  (h.next,
   { next := h.next + 1
     strs := fun i => if i = h.next then v else h.strs i
     lats := h.lats })

/-- Allocate a fresh latency-map cell. -/
def Heap.allocLat (h : Heap) (v : List (String × Int)) : Nat × Heap :=
  (h.next,
   { next := h.next + 1
     strs := h.strs
     lats := fun i => if i = h.next then v else h.lats i })

/-- Overwrite the contents of a string-slice cell (a caller mutating a slice). -/
def Heap.writeStr (h : Heap) (l : Nat) (v : List String) : Heap :=
  { h with strs := fun i => if i = l then v else h.strs i }

/-- Overwrite the contents of a latency-map cell (a caller mutating a map). -/
def Heap.writeLat (h : Heap) (l : Nat) (v : List (String × Int)) : Heap :=
  { h with lats := fun i => if i = l then v else h.lats i }

/-- Read a string slice: a nil slice reads as `[]`. -/
def readStr (h : Heap) : Option Nat → List String
  | none => []
  | some l => h.strs l

/-- Read a latency map: a nil map reads as no entries. -/
def readLat (h : Heap) : Option Nat → List (String × Int)
  | none => []
  | some l => h.lats l

/-- Go's `append([]string(nil), xs...)`: returns nil when `xs` is empty,
otherwise a freshly allocated copy of the contents. -/
def copyStrSlice (h : Heap) (src : Option Nat) : Option Nat × Heap :=
  let xs := readStr h src
  if xs = [] then (none, h)
  else
    let (l, h') := h.allocStr xs
    (some l, h')

/-- Go's `make(map[string]int64, n)` followed by copying every entry: always
allocates a fresh (non-nil) map holding the source contents. -/
def copyLatMap (h : Heap) (src : Option Nat) : Option Nat × Heap :=
  let (l, h') := h.allocLat (readLat h src)
  (some l, h')

/-! ## State store operations -/

/-- `Snapshot` from `state.go`: the read model returned by `GetSnapshot`. -/
structure Snapshot where
  agentState : AgentState
  startedAt : Nat
  warnings : Option Nat
  tun : TUNSnapshot
  routes : RouteSnapshot
  tun2socks : Tun2SocksSnapshot
  lastProbe : ProbeRecord
deriving DecidableEq, Repr

/-- `State.GetSnapshot` from `state.go`: deep-copies every slice/map field in
source order (state warnings, LAN CIDRs, bypass hosts, probe latencies, probe
warnings) and returns the copy together with the grown heap. -/
def GetSnapshot (h : Heap) (s : State) : Snapshot × Heap :=
  let c1 := copyStrSlice h s.warnings
  let c2 := copyStrSlice c1.2 s.routes.lanCIDRs
  let c3 := copyStrSlice c2.2 s.routes.bypassHosts
  let c4 := copyLatMap c3.2 s.lastProbe.latenciesMs
  let c5 := copyStrSlice c4.2 s.lastProbe.warnings
  ({ agentState := s.agent
     startedAt := s.startedAt
     warnings := c1.1
     tun := s.tun
     routes := { s.routes with lanCIDRs := c2.1, bypassHosts := c3.1 }
     tun2socks := s.tun2socks
     lastProbe := { s.lastProbe with latenciesMs := c4.1, warnings := c5.1 } },
   c5.2)

/-- `State.UpdateProbe` from `state.go`: replaces the stored probe summary,
deep-copying the incoming map and slice fields. -/
def UpdateProbe (h : Heap) (s : State) (p : ProbeRecord) : State × Heap :=
  let c1 := copyLatMap h p.latenciesMs
  let c2 := copyStrSlice c1.2 p.warnings
  ({ s with lastProbe := { p with latenciesMs := c1.1, warnings := c2.1 } }, c2.2)

/-- `State.Uptime` from `state.go`: zero if never started, else now minus
`startedAt`. -/
def Uptime (s : State) (now : Int) : Int :=
  if s.startedAt = 0 then 0 else now - (s.startedAt : Int)

/-- `State.SetStartedAt` from `state.go`: force-sets `startedAt`. -/
def SetStartedAt (s : State) (t : Nat) : State :=
  { s with startedAt := t }

/-- The `ErrInvalidTransition` sentinel from `state.go`. -/
inductive TransitionError where
  | invalidTransition
deriving DecidableEq, Repr

/-- `allowedTransition` from `state.go`, translated case by case. -/
def allowedTransition (cur next : AgentState) : Bool :=
  match cur with
  | .inactive => next == .starting || next == .active
  | .starting => next == .active || next == .error || next == .inactive
  | .active => next == .degraded || next == .stopping || next == .error
  | .degraded => next == .active || next == .stopping || next == .error
  | .stopping => next == .inactive || next == .error
  | .error => next == .inactive || next == .starting

/-- `State.SetAgentState` from `state.go`: self-transitions are no-op
successes; disallowed edges return `ErrInvalidTransition` with no change;
allowed edges update lifecycle timestamps and store the new state.
`now` models the `time.Now()` observed during the call. -/
def SetAgentState (s : State) (next : AgentState) (now : Nat) :
    Option TransitionError × State :=
  let cur := s.agent
  if cur = next then (none, s)
  else if !allowedTransition cur next then (some .invalidTransition, s)
  else
    let s :=
      match next with
      | .active => if s.startedAt = 0 then { s with startedAt := now } else s
      | .inactive => { s with startedAt := 0 }
      | _ => s
    (none, { s with agent := next })

/-! ## Claim C1: the transition table -/

/-- The transition table exactly as listed in the specification (spec words,
for comparison with the code's `allowedTransition`). -/
def specTransitionTable : List (AgentState × AgentState) :=
  [(.inactive, .starting), (.inactive, .active),
   (.starting, .active), (.starting, .error), (.starting, .inactive),
   (.active, .degraded), (.active, .stopping), (.active, .error),
   (.degraded, .active), (.degraded, .stopping), (.degraded, .error),
   (.stopping, .inactive), (.stopping, .error),
   (.error, .inactive), (.error, .starting)]

/-- `(cur, next)` is an edge of the spec's table. -/
def specEdge (cur next : AgentState) : Prop :=
  (cur, next) ∈ specTransitionTable

instance (cur next : AgentState) : Decidable (specEdge cur next) := by
  unfold specEdge; infer_instance

/-- The code's `allowedTransition` computes exactly the spec's table. -/
theorem allowed_iff_specEdge (c n : AgentState) :
    allowedTransition c n = true ↔ specEdge c n := by
  cases c <;> cases n <;> decide

/-- C1: `SetAgentState(next)` succeeds and stores `next` exactly when the
current state equals `next` (a no-op) or `(cur, next)` is an edge of the
spec's transition table; on any other pair it returns the invalid-transition
error and leaves every stored field unchanged. -/
theorem setAgentState_transition_table (s : State) (next : AgentState) (now : Nat) :
    ((SetAgentState s next now).1 = none ↔ (s.agent = next ∨ specEdge s.agent next)) ∧
    (if s.agent = next then (SetAgentState s next now).2 = s else True) ∧
    (if s.agent = next ∨ specEdge s.agent next
      then (SetAgentState s next now).2.agent = next
      else (SetAgentState s next now).2 = s) := by
  have hiff := allowed_iff_specEdge s.agent next
  by_cases he : s.agent = next
  · refine ⟨by simp [SetAgentState, he], by simp [SetAgentState, he], ?_⟩
    rw [if_pos (Or.inl he)]
    simp [SetAgentState, he]
  · cases ha : allowedTransition s.agent next with
    | false =>
      have hne : ¬ specEdge s.agent next := by
        rw [← hiff, ha]; simp
      refine ⟨by simp [SetAgentState, he, ha, hne], by simp [he], ?_⟩
      rw [if_neg (by tauto)]
      simp [SetAgentState, he, ha]
    | true =>
      have hsp : specEdge s.agent next := hiff.mp ha
      refine ⟨by simp [SetAgentState, he, ha, hsp], by simp [he], ?_⟩
      rw [if_pos (Or.inr hsp)]
      cases next <;> simp [SetAgentState, he, ha]

/-! ## Claim C2: `startedAt` across successful transitions -/

/-- Fold a list of `(next, now)` calls through `SetAgentState`, keeping the
resulting state of each call (failed calls leave the state unchanged, as in
the code). -/
def applyCalls (s : State) (calls : List (AgentState × Nat)) : State :=
  calls.foldl (fun s c => (SetAgentState s c.1 c.2).2) s

/-- Lifecycle invariant of states reachable by `SetAgentState` alone:
inactive implies never-started, active implies started. -/
def lifecycleInv (s : State) : Prop :=
  (s.agent = .inactive → s.startedAt = 0) ∧ (s.agent = .active → s.startedAt ≠ 0)

theorem setAgentState_preserves_inv (s : State) (next : AgentState) (now : Nat)
    (hnow : 0 < now) (hs : lifecycleInv s) :
    lifecycleInv (SetAgentState s next now).2 := by
  by_cases he : s.agent = next
  · simpa [SetAgentState, he] using hs
  · cases ha : allowedTransition s.agent next with
    | false => simpa [SetAgentState, he, ha] using hs
    | true =>
      cases next with
      | inactive => simp [SetAgentState, he, ha, lifecycleInv]
      | active =>
        refine ⟨by simp [SetAgentState, he, ha], ?_⟩
        intro
        simp only [SetAgentState, lifecycleInv, if_neg he, ha]
        by_cases hz : s.startedAt = 0
        · simp [hz]
          omega
        · simp [hz]
      | starting => simp [SetAgentState, he, ha, lifecycleInv]
      | degraded => simp [SetAgentState, he, ha, lifecycleInv]
      | stopping => simp [SetAgentState, he, ha, lifecycleInv]
      | error => simp [SetAgentState, he, ha, lifecycleInv]

theorem applyCalls_inv (calls : List (AgentState × Nat))
    (hpos : ∀ c ∈ calls, 0 < c.2) (s : State) (hs : lifecycleInv s) :
    lifecycleInv (applyCalls s calls) := by
  induction calls generalizing s with
  | nil => exact hs
  | cons c cs ih =>
    simp only [applyCalls, List.foldl_cons]
    exact ih (fun d hd => hpos d (List.mem_cons_of_mem c hd))
      _ (setAgentState_preserves_inv s c.1 c.2 (hpos c (List.mem_cons_self c cs)) hs)

/-- A single `SetAgentState` call, on any state satisfying the lifecycle
invariant, changes `startedAt` exactly as C2 states. -/
theorem startedAt_step (s : State) (next : AgentState) (now : Nat)
    (hs : lifecycleInv s) :
    (SetAgentState s next now).2.startedAt =
      (if (SetAgentState s next now).1 = none then
        (if next = .active then (if s.startedAt = 0 then now else s.startedAt)
         else if next = .inactive then 0
         else s.startedAt)
       else s.startedAt) := by
  obtain ⟨h1, h2⟩ := hs
  by_cases he : s.agent = next
  · simp only [SetAgentState, if_pos he]
    cases hn : next with
    | inactive => simp [h1 (he.trans hn)]
    | active => simp [h2 (he.trans hn)]
    | starting => simp
    | degraded => simp
    | stopping => simp
    | error => simp
  · cases ha : allowedTransition s.agent next with
    | false => simp [SetAgentState, he, ha]
    | true =>
      cases next with
      | active =>
        simp only [SetAgentState, if_neg he, ha]
        by_cases hz : s.startedAt = 0 <;> simp [hz]
      | inactive => simp [SetAgentState, he, ha]
      | starting => simp [SetAgentState, he, ha]
      | degraded => simp [SetAgentState, he, ha]
      | stopping => simp [SetAgentState, he, ha]
      | error => simp [SetAgentState, he, ha]

/-- C2: starting from a fresh state, along any sequence of `SetAgentState`
calls (with genuine wall-clock times, i.e. nonzero): a successful transition
into `active` sets `startedAt` to the call's wall-clock time when it was zero
and leaves it alone otherwise; a successful transition into `inactive` resets
it to zero; every other call (successful into another state, or failed)
leaves it unchanged; and `Uptime` is zero when `startedAt` is zero, otherwise
now minus `startedAt`. -/
theorem startedAt_lifecycle (calls : List (AgentState × Nat))
    (hpos : ∀ c ∈ calls, 0 < c.2) (next : AgentState) (now : Nat) (tnow : Int) :
    ((SetAgentState (applyCalls NewState calls) next now).2.startedAt =
      (if (SetAgentState (applyCalls NewState calls) next now).1 = none then
        (if next = .active then
          (if (applyCalls NewState calls).startedAt = 0 then now
           else (applyCalls NewState calls).startedAt)
         else if next = .inactive then 0
         else (applyCalls NewState calls).startedAt)
       else (applyCalls NewState calls).startedAt)) ∧
    Uptime (applyCalls NewState calls) tnow =
      (if (applyCalls NewState calls).startedAt = 0 then 0
       else tnow - ((applyCalls NewState calls).startedAt : Int)) := by
  have hinv : lifecycleInv (applyCalls NewState calls) :=
    applyCalls_inv calls hpos NewState (by simp [NewState, lifecycleInv])
  exact ⟨startedAt_step _ next now hinv, by simp [Uptime]⟩

/-- Witness for C2 at a concrete history: `inactive → starting → active` then
a further call `active → degraded`. -/
theorem startedAt_lifecycle_witness :
    ((SetAgentState (applyCalls NewState [(.starting, 3), (.active, 5)]) .degraded 9).2.startedAt =
      (if (SetAgentState (applyCalls NewState [(.starting, 3), (.active, 5)]) .degraded 9).1 = none then
        (if AgentState.degraded = .active then
          (if (applyCalls NewState [(.starting, 3), (.active, 5)]).startedAt = 0 then 9
           else (applyCalls NewState [(.starting, 3), (.active, 5)]).startedAt)
         else if AgentState.degraded = .inactive then 0
         else (applyCalls NewState [(.starting, 3), (.active, 5)]).startedAt)
       else (applyCalls NewState [(.starting, 3), (.active, 5)]).startedAt)) ∧
    Uptime (applyCalls NewState [(.starting, 3), (.active, 5)]) 11 =
      (if (applyCalls NewState [(.starting, 3), (.active, 5)]).startedAt = 0 then 0
       else (11 : Int) - ((applyCalls NewState [(.starting, 3), (.active, 5)]).startedAt : Int)) :=
  startedAt_lifecycle [(.starting, 3), (.active, 5)] (by decide) .degraded 9 11

/-! ## Claim C10: `SetStartedAt` bypasses the transition machine -/

/-- C10: `SetStartedAt(t)` overwrites `startedAt` unconditionally in every
lifecycle state, leaves every other stored field unchanged, and afterwards
`Uptime` returns now minus `t` whenever `t` is nonzero — regardless of the
agent state (in particular while inactive). -/
theorem setStartedAt_unconditional (s : State) (t : Nat) (now : Int) :
    (SetStartedAt s t).startedAt = t ∧
    (SetStartedAt s t).agent = s.agent ∧
    (SetStartedAt s t).warnings = s.warnings ∧
    (SetStartedAt s t).tun = s.tun ∧
    (SetStartedAt s t).routes = s.routes ∧
    (SetStartedAt s t).tun2socks = s.tun2socks ∧
    (SetStartedAt s t).lastProbe = s.lastProbe ∧
    (if t = 0 then True else Uptime (SetStartedAt s t) now = now - (t : Int)) := by
  refine ⟨rfl, rfl, rfl, rfl, rfl, rfl, rfl, ?_⟩
  split
  · trivial
  · simp_all [Uptime, SetStartedAt]


/-! ## Claims C3 and C4: defensive copies in the state store -/

/-- Locations of a possibly-nil slice/map field. -/
def optLoc : Option Nat → List Nat
  | none => []
  | some l => [l]

theorem mem_optLoc {l : Nat} {x : Option Nat} : l ∈ optLoc x ↔ x = some l := by
  cases x with
  | none => simp [optLoc]
  | some a => simp [optLoc, eq_comm]

/-- All string-slice locations held by the live state. -/
def stateStrLocs (s : State) : List Nat :=
  optLoc s.warnings ++ optLoc s.routes.lanCIDRs ++ optLoc s.routes.bypassHosts ++
    optLoc s.lastProbe.warnings

/-- All latency-map locations held by the live state. -/
def stateLatLocs (s : State) : List Nat :=
  optLoc s.lastProbe.latenciesMs

/-- All heap locations held by the live state. -/
def stateLocs (s : State) : List Nat :=
  stateStrLocs s ++ stateLatLocs s

/-- All string-slice locations held by a returned snapshot. -/
def snapStrLocs (sn : Snapshot) : List Nat :=
  optLoc sn.warnings ++ optLoc sn.routes.lanCIDRs ++ optLoc sn.routes.bypassHosts ++
    optLoc sn.lastProbe.warnings

/-- All latency-map locations held by a returned snapshot. -/
def snapLatLocs (sn : Snapshot) : List Nat :=
  optLoc sn.lastProbe.latenciesMs

/-- All heap locations held by a returned snapshot. -/
def snapLocs (sn : Snapshot) : List Nat :=
  snapStrLocs sn ++ snapLatLocs sn

theorem readStr_ext (hA hB : Heap) (src : Option Nat)
    (hp : ∀ l, src = some l → hB.strs l = hA.strs l) :
    readStr hB src = readStr hA src := by
  cases src with
  | none => rfl
  | some l => exact hp l rfl

theorem readLat_ext (hA hB : Heap) (src : Option Nat)
    (hp : ∀ l, src = some l → hB.lats l = hA.lats l) :
    readLat hB src = readLat hA src := by
  cases src with
  | none => rfl
  | some l => exact hp l rfl

theorem copyStrSlice_spec (h : Heap) (src : Option Nat) :
    h.next ≤ (copyStrSlice h src).2.next ∧
    (∀ l, (copyStrSlice h src).1 = some l →
      h.next ≤ l ∧ l < (copyStrSlice h src).2.next) ∧
    (∀ l, l < h.next → (copyStrSlice h src).2.strs l = h.strs l) ∧
    ((copyStrSlice h src).2.lats = h.lats) ∧
    readStr (copyStrSlice h src).2 (copyStrSlice h src).1 = readStr h src := by
  by_cases hx : readStr h src = []
  · have hres : copyStrSlice h src = (none, h) := by
      simp only [copyStrSlice, if_pos hx]
    rw [hres]
    refine ⟨le_refl _, by simp, fun l _ => rfl, rfl, ?_⟩
    simp only [readStr]
    exact hx.symm
  · have hres : copyStrSlice h src =
        (some h.next,
          { next := h.next + 1
            strs := fun i => if i = h.next then readStr h src else h.strs i
            lats := h.lats }) := by
      simp only [copyStrSlice, if_neg hx, Heap.allocStr]
    rw [hres]
    refine ⟨by simp, ?_, ?_, rfl, ?_⟩
    · intro l hl
      simp only [Option.some.injEq] at hl
      simp [← hl]
    · intro l hl
      simp only []
      rw [if_neg (by omega : ¬ l = h.next)]
    · simp [readStr]

theorem copyLatMap_spec (h : Heap) (src : Option Nat) :
    h.next ≤ (copyLatMap h src).2.next ∧
    (∀ l, (copyLatMap h src).1 = some l →
      h.next ≤ l ∧ l < (copyLatMap h src).2.next) ∧
    (∀ l, l < h.next → (copyLatMap h src).2.lats l = h.lats l) ∧
    ((copyLatMap h src).2.strs = h.strs) ∧
    ((copyLatMap h src).1.isSome = true) ∧
    readLat (copyLatMap h src).2 (copyLatMap h src).1 = readLat h src := by
  have hres : copyLatMap h src =
      (some h.next,
        { next := h.next + 1
          strs := h.strs
          lats := fun i => if i = h.next then readLat h src else h.lats i }) := by
    simp only [copyLatMap, Heap.allocLat]
  rw [hres]
  refine ⟨by simp, ?_, ?_, rfl, rfl, ?_⟩
  · intro l hl
    simp only [Option.some.injEq] at hl
    simp [← hl]
  · intro l hl
    simp only []
    rw [if_neg (by omega : ¬ l = h.next)]
  · simp [readLat]

/-- Combined specification of `GetSnapshot`'s heap behavior: the heap only
grows, every location of the returned snapshot is freshly allocated, old
cells keep their contents, and the snapshot's slice/map fields read back the
live state's contents at call time. -/
theorem GetSnapshot_spec (h : Heap) (s : State)
    (hwf : ∀ l ∈ stateLocs s, l < h.next) :
    h.next ≤ (GetSnapshot h s).2.next ∧
    (∀ l ∈ snapLocs (GetSnapshot h s).1, h.next ≤ l ∧ l < (GetSnapshot h s).2.next) ∧
    (∀ l, l < h.next →
      (GetSnapshot h s).2.strs l = h.strs l ∧ (GetSnapshot h s).2.lats l = h.lats l) ∧
    readStr (GetSnapshot h s).2 (GetSnapshot h s).1.warnings = readStr h s.warnings ∧
    readStr (GetSnapshot h s).2 (GetSnapshot h s).1.routes.lanCIDRs =
      readStr h s.routes.lanCIDRs ∧
    readStr (GetSnapshot h s).2 (GetSnapshot h s).1.routes.bypassHosts =
      readStr h s.routes.bypassHosts ∧
    readLat (GetSnapshot h s).2 (GetSnapshot h s).1.lastProbe.latenciesMs =
      readLat h s.lastProbe.latenciesMs ∧
    readStr (GetSnapshot h s).2 (GetSnapshot h s).1.lastProbe.warnings =
      readStr h s.lastProbe.warnings ∧
    (GetSnapshot h s).1.lastProbe.latenciesMs.isSome = true := by
  have hwfW : ∀ l, s.warnings = some l → l < h.next := fun l hl =>
    hwf l (by simp [stateLocs, stateStrLocs, mem_optLoc, hl])
  have hwfL : ∀ l, s.routes.lanCIDRs = some l → l < h.next := fun l hl =>
    hwf l (by simp [stateLocs, stateStrLocs, mem_optLoc, hl])
  have hwfB : ∀ l, s.routes.bypassHosts = some l → l < h.next := fun l hl =>
    hwf l (by simp [stateLocs, stateStrLocs, mem_optLoc, hl])
  have hwfM : ∀ l, s.lastProbe.latenciesMs = some l → l < h.next := fun l hl =>
    hwf l (by simp [stateLocs, stateLatLocs, mem_optLoc, hl])
  have hwfP : ∀ l, s.lastProbe.warnings = some l → l < h.next := fun l hl =>
    hwf l (by simp [stateLocs, stateStrLocs, mem_optLoc, hl])
  obtain ⟨m1, r1, p1, q1, c1⟩ := copyStrSlice_spec h s.warnings
  obtain ⟨m2, r2, p2, q2, c2⟩ :=
    copyStrSlice_spec (copyStrSlice h s.warnings).2 s.routes.lanCIDRs
  obtain ⟨m3, r3, p3, q3, c3⟩ :=
    copyStrSlice_spec (copyStrSlice (copyStrSlice h s.warnings).2 s.routes.lanCIDRs).2
      s.routes.bypassHosts
  obtain ⟨m4, r4, p4, q4, i4, c4⟩ :=
    copyLatMap_spec
      (copyStrSlice (copyStrSlice (copyStrSlice h s.warnings).2 s.routes.lanCIDRs).2
        s.routes.bypassHosts).2
      s.lastProbe.latenciesMs
  obtain ⟨m5, r5, p5, q5, c5⟩ :=
    copyStrSlice_spec
      (copyLatMap
        (copyStrSlice (copyStrSlice (copyStrSlice h s.warnings).2 s.routes.lanCIDRs).2
          s.routes.bypassHosts).2
        s.lastProbe.latenciesMs).2
      s.lastProbe.warnings
  simp only [GetSnapshot]
  refine ⟨by omega, ?_, ?_, ?_, ?_, ?_, ?_, ?_, i4⟩
  · intro l hl
    simp only [snapLocs, snapStrLocs, snapLatLocs, List.mem_append, mem_optLoc] at hl
    rcases hl with (((hl | hl) | hl) | hl) | hl
    · have := r1 l hl; omega
    · have := r2 l hl; omega
    · have := r3 l hl; omega
    · have := r5 l hl; omega
    · have := r4 l hl; omega
  · intro l hl
    constructor
    · rw [p5 l (by omega), q4, p3 l (by omega), p2 l (by omega), p1 l hl]
    · rw [q5, p4 l (by omega), q3, q2, q1]
  · rw [← c1]
    refine readStr_ext _ _ _ (fun l hl => ?_)
    have := r1 l hl
    rw [p5 l (by omega), q4, p3 l (by omega), p2 l (by omega)]
  · have hpre : readStr (copyStrSlice h s.warnings).2 s.routes.lanCIDRs =
      readStr h s.routes.lanCIDRs :=
      readStr_ext _ _ _ (fun l hl => p1 l (hwfL l hl))
    rw [← hpre, ← c2]
    refine readStr_ext _ _ _ (fun l hl => ?_)
    have := r2 l hl
    rw [p5 l (by omega), q4, p3 l (by omega)]
  · have hpre : readStr (copyStrSlice (copyStrSlice h s.warnings).2 s.routes.lanCIDRs).2
        s.routes.bypassHosts =
      readStr h s.routes.bypassHosts := by
      refine readStr_ext _ _ _ (fun l hl => ?_)
      have := hwfB l hl
      rw [p2 l (by omega), p1 l (by omega)]
    rw [← hpre, ← c3]
    refine readStr_ext _ _ _ (fun l hl => ?_)
    have := r3 l hl
    rw [p5 l (by omega), q4]
  · have hpre : readLat (copyStrSlice (copyStrSlice (copyStrSlice h s.warnings).2
        s.routes.lanCIDRs).2 s.routes.bypassHosts).2 s.lastProbe.latenciesMs =
      readLat h s.lastProbe.latenciesMs := by
      refine readLat_ext _ _ _ (fun l hl => ?_)
      rw [q3, q2, q1]
    rw [← hpre, ← c4]
    refine readLat_ext _ _ _ (fun l hl => ?_)
    rw [q5]
  · have hpre : readStr (copyLatMap (copyStrSlice (copyStrSlice (copyStrSlice h
        s.warnings).2 s.routes.lanCIDRs).2 s.routes.bypassHosts).2
        s.lastProbe.latenciesMs).2 s.lastProbe.warnings =
      readStr h s.lastProbe.warnings := by
      refine readStr_ext _ _ _ (fun l hl => ?_)
      have := hwfP l hl
      rw [q4, p3 l (by omega), p2 l (by omega), p1 l (by omega)]
    rw [← hpre, ← c5]

/-- Combined specification of `UpdateProbe`'s heap behavior: the stored probe
record keeps every scalar field of the argument, its map/slice locations are
freshly allocated copies of the argument's contents, the stored map is never
nil, and old cells are untouched. -/
theorem UpdateProbe_spec (h : Heap) (s : State) (p : ProbeRecord) :
    h.next ≤ (UpdateProbe h s p).2.next ∧
    (∀ l, (UpdateProbe h s p).1.lastProbe.latenciesMs = some l →
      h.next ≤ l ∧ l < (UpdateProbe h s p).2.next) ∧
    (∀ l, (UpdateProbe h s p).1.lastProbe.warnings = some l →
      h.next ≤ l ∧ l < (UpdateProbe h s p).2.next) ∧
    (∀ l, l < h.next →
      (UpdateProbe h s p).2.strs l = h.strs l ∧ (UpdateProbe h s p).2.lats l = h.lats l) ∧
    readLat (UpdateProbe h s p).2 (UpdateProbe h s p).1.lastProbe.latenciesMs =
      readLat h p.latenciesMs ∧
    readStr (UpdateProbe h s p).2 (UpdateProbe h s p).1.lastProbe.warnings =
      readStr h p.warnings ∧
    (UpdateProbe h s p).1.lastProbe.latenciesMs.isSome = true ∧
    (UpdateProbe h s p).1.lastProbe.reachable = p.reachable ∧
    (UpdateProbe h s p).1.lastProbe.socksOK = p.socksOK ∧
    (UpdateProbe h s p).1.lastProbe.connectOK = p.connectOK ∧
    (UpdateProbe h s p).1.lastProbe.udpOK = p.udpOK ∧
    (UpdateProbe h s p).1.lastProbe.features = p.features ∧
    (UpdateProbe h s p).1.lastProbe.lastChecked = p.lastChecked ∧
    (UpdateProbe h s p).1.warnings = s.warnings ∧
    (UpdateProbe h s p).1.routes = s.routes := by
  obtain ⟨m1, r1, p1, q1, i1, c1⟩ := copyLatMap_spec h p.latenciesMs
  obtain ⟨m2, r2, p2, q2, c2⟩ :=
    copyStrSlice_spec (copyLatMap h p.latenciesMs).2 p.warnings
  simp only [UpdateProbe]
  refine ⟨by omega, ?_, ?_, ?_, ?_, ?_, i1, by trivial, by trivial, by trivial,
    by trivial, by trivial, by trivial, by trivial, by trivial⟩
  · intro l hl
    have := r1 l hl
    omega
  · intro l hl
    have := r2 l hl
    omega
  · intro l hl
    constructor
    · rw [p2 l (by omega), q1]
    · rw [q2, p1 l hl]
  · rw [← c1]
    refine readLat_ext _ _ _ (fun l hl => ?_)
    rw [q2]
  · have hpre : readStr (copyLatMap h p.latenciesMs).2 p.warnings =
        readStr h p.warnings :=
      readStr_ext _ _ _ (fun l hl => by rw [q1])
    rw [c2, hpre]

/-- C3: `GetSnapshot` returns independently-owned deep copies: every heap
location of a returned snapshot is distinct from the live state's locations
and from those of any other returned snapshot, so overwriting the contents of
any of the first snapshot's cells leaves the live state's cells and a second
snapshot's cells untouched. -/
theorem getSnapshot_independent_copies (h : Heap) (s : State)
    (hwf : ∀ l ∈ stateLocs s, l < h.next) :
    (∀ l ∈ snapLocs (GetSnapshot h s).1, l ∉ stateLocs s) ∧
    (∀ l ∈ snapLocs (GetSnapshot (GetSnapshot h s).2 s).1, l ∉ stateLocs s) ∧
    (∀ l ∈ snapLocs (GetSnapshot h s).1,
      l ∉ snapLocs (GetSnapshot (GetSnapshot h s).2 s).1) ∧
    (∀ l l', l ∈ snapLocs (GetSnapshot h s).1 →
      (l' ∈ stateLocs s ∨ l' ∈ snapLocs (GetSnapshot (GetSnapshot h s).2 s).1) →
      ∀ v, (Heap.writeStr (GetSnapshot (GetSnapshot h s).2 s).2 l v).strs l' =
        (GetSnapshot (GetSnapshot h s).2 s).2.strs l') ∧
    (∀ l l', l ∈ snapLocs (GetSnapshot h s).1 →
      (l' ∈ stateLocs s ∨ l' ∈ snapLocs (GetSnapshot (GetSnapshot h s).2 s).1) →
      ∀ v, (Heap.writeLat (GetSnapshot (GetSnapshot h s).2 s).2 l v).lats l' =
        (GetSnapshot (GetSnapshot h s).2 s).2.lats l') := by
  obtain ⟨m1, r1, -⟩ := GetSnapshot_spec h s hwf
  have hwf2 : ∀ l ∈ stateLocs s, l < (GetSnapshot h s).2.next := fun l hl =>
    lt_of_lt_of_le (hwf l hl) m1
  obtain ⟨m2, r2, -⟩ := GetSnapshot_spec (GetSnapshot h s).2 s hwf2
  refine ⟨?_, ?_, ?_, ?_, ?_⟩
  · intro l hl hls
    have := r1 l hl
    have := hwf l hls
    omega
  · intro l hl hls
    have := r2 l hl
    have := hwf l hls
    omega
  · intro l hl hl2
    have := r1 l hl
    have := r2 l hl2
    omega
  · intro l l' hl hl' v
    have hb := r1 l hl
    have hne : ¬ l' = l := by
      rcases hl' with hst | hsn
      · have := hwf l' hst
        omega
      · have := r2 l' hsn
        omega
    simp [Heap.writeStr, hne]
  · intro l l' hl hl' v
    have hb := r1 l hl
    have hne : ¬ l' = l := by
      rcases hl' with hst | hsn
      · have := hwf l' hst
        omega
      · have := r2 l' hsn
        omega
    simp [Heap.writeLat, hne]

/-- A tiny concrete heap for witnesses: warnings slice at location 0, a
latency map at location 1. -/
def demoHeap : Heap :=
  { next := 2
    strs := fun i => if i = 0 then ["w"] else []
    lats := fun i => if i = 1 then [("tcp_connect", 3)] else [] }

/-- A concrete live state pointing at `demoHeap`'s two cells. -/
def demoState : State :=
  { warnings := some 0, lastProbe := { latenciesMs := some 1 } }

/-- Witness for C3 at the concrete heap and state. -/
theorem getSnapshot_independent_copies_witness :
    (∀ l ∈ stateLocs demoState, l < demoHeap.next) ∧
    ((∀ l ∈ snapLocs (GetSnapshot demoHeap demoState).1, l ∉ stateLocs demoState) ∧
     (∀ l ∈ snapLocs (GetSnapshot (GetSnapshot demoHeap demoState).2 demoState).1,
       l ∉ stateLocs demoState) ∧
     (∀ l ∈ snapLocs (GetSnapshot demoHeap demoState).1,
       l ∉ snapLocs (GetSnapshot (GetSnapshot demoHeap demoState).2 demoState).1) ∧
     (∀ l l', l ∈ snapLocs (GetSnapshot demoHeap demoState).1 →
       (l' ∈ stateLocs demoState ∨
         l' ∈ snapLocs (GetSnapshot (GetSnapshot demoHeap demoState).2 demoState).1) →
       ∀ v, (Heap.writeStr (GetSnapshot (GetSnapshot demoHeap demoState).2 demoState).2
           l v).strs l' =
         (GetSnapshot (GetSnapshot demoHeap demoState).2 demoState).2.strs l') ∧
     (∀ l l', l ∈ snapLocs (GetSnapshot demoHeap demoState).1 →
       (l' ∈ stateLocs demoState ∨
         l' ∈ snapLocs (GetSnapshot (GetSnapshot demoHeap demoState).2 demoState).1) →
       ∀ v, (Heap.writeLat (GetSnapshot (GetSnapshot demoHeap demoState).2 demoState).2
           l v).lats l' =
         (GetSnapshot (GetSnapshot demoHeap demoState).2 demoState).2.lats l')) :=
  ⟨by decide, getSnapshot_independent_copies demoHeap demoState (by decide)⟩

/-- C4: `UpdateProbe(p)` followed by `GetSnapshot` round-trips every field of
`p`: all scalar fields are preserved, the latency map's contents read back
exactly (with a nil map normalizing to an allocated empty map, never nil),
the warnings slice's contents read back exactly, and the stored copies live
at locations distinct from `p`'s own, so overwriting the caller's cells after
the call leaves the stored values unchanged. -/
theorem updateProbe_roundtrip (h : Heap) (s : State) (p : ProbeRecord)
    (hwfS : ∀ l ∈ stateLocs s, l < h.next)
    (hwfP : ∀ l ∈ optLoc p.latenciesMs ++ optLoc p.warnings, l < h.next) :
    (GetSnapshot (UpdateProbe h s p).2 (UpdateProbe h s p).1).1.lastProbe.reachable =
      p.reachable ∧
    (GetSnapshot (UpdateProbe h s p).2 (UpdateProbe h s p).1).1.lastProbe.socksOK =
      p.socksOK ∧
    (GetSnapshot (UpdateProbe h s p).2 (UpdateProbe h s p).1).1.lastProbe.connectOK =
      p.connectOK ∧
    (GetSnapshot (UpdateProbe h s p).2 (UpdateProbe h s p).1).1.lastProbe.udpOK =
      p.udpOK ∧
    (GetSnapshot (UpdateProbe h s p).2 (UpdateProbe h s p).1).1.lastProbe.features =
      p.features ∧
    (GetSnapshot (UpdateProbe h s p).2 (UpdateProbe h s p).1).1.lastProbe.lastChecked =
      p.lastChecked ∧
    (GetSnapshot (UpdateProbe h s p).2
      (UpdateProbe h s p).1).1.lastProbe.latenciesMs.isSome = true ∧
    readLat (GetSnapshot (UpdateProbe h s p).2 (UpdateProbe h s p).1).2
      (GetSnapshot (UpdateProbe h s p).2 (UpdateProbe h s p).1).1.lastProbe.latenciesMs =
      readLat h p.latenciesMs ∧
    readStr (GetSnapshot (UpdateProbe h s p).2 (UpdateProbe h s p).1).2
      (GetSnapshot (UpdateProbe h s p).2 (UpdateProbe h s p).1).1.lastProbe.warnings =
      readStr h p.warnings ∧
    (∀ l v, p.latenciesMs = some l →
      readLat (Heap.writeLat (UpdateProbe h s p).2 l v)
        (UpdateProbe h s p).1.lastProbe.latenciesMs =
      readLat (UpdateProbe h s p).2 (UpdateProbe h s p).1.lastProbe.latenciesMs) ∧
    (∀ l v, p.warnings = some l →
      readStr (Heap.writeStr (UpdateProbe h s p).2 l v)
        (UpdateProbe h s p).1.lastProbe.warnings =
      readStr (UpdateProbe h s p).2 (UpdateProbe h s p).1.lastProbe.warnings) := by
  obtain ⟨um, ulr, uwr, upres, uclat, ucstr, ui, us1, us2, us3, us4, us5, us6, uw, ur⟩ :=
    UpdateProbe_spec h s p
  have hwfU : ∀ l ∈ stateLocs (UpdateProbe h s p).1, l < (UpdateProbe h s p).2.next := by
    intro l hl
    simp only [stateLocs, stateStrLocs, stateLatLocs, List.mem_append, mem_optLoc,
      uw, ur] at hl
    rcases hl with (((hl | hl) | hl) | hl) | hl
    · have : l < h.next := hwfS l (by simp [stateLocs, stateStrLocs, mem_optLoc, hl])
      omega
    · have : l < h.next := hwfS l (by simp [stateLocs, stateStrLocs, mem_optLoc, hl])
      omega
    · have : l < h.next := hwfS l (by simp [stateLocs, stateStrLocs, mem_optLoc, hl])
      omega
    · exact (uwr l hl).2
    · exact (ulr l hl).2
  obtain ⟨gm, gr, gpres, gcw, gclan, gcbp, gclat, gcpw, gi⟩ :=
    GetSnapshot_spec (UpdateProbe h s p).2 (UpdateProbe h s p).1 hwfU
  refine ⟨?_, ?_, ?_, ?_, ?_, ?_, gi, ?_, ?_, ?_, ?_⟩
  · simpa only [GetSnapshot] using us1
  · simpa only [GetSnapshot] using us2
  · simpa only [GetSnapshot] using us3
  · simpa only [GetSnapshot] using us4
  · simpa only [GetSnapshot] using us5
  · simpa only [GetSnapshot] using us6
  · rw [gclat, uclat]
  · rw [gcpw, ucstr]
  · intro l v hl
    have hlh : l < h.next :=
      hwfP l (by simp [mem_optLoc, hl])
    refine readLat_ext _ _ _ (fun m hm => ?_)
    have := ulr m hm
    have hne : ¬ m = l := by omega
    simp only [Heap.writeLat]
    rw [if_neg hne]
  · intro l v hl
    have hlh : l < h.next :=
      hwfP l (by simp [mem_optLoc, hl])
    refine readStr_ext _ _ _ (fun m hm => ?_)
    have := uwr m hm
    have hne : ¬ m = l := by omega
    simp only [Heap.writeStr]
    rw [if_neg hne]

/-- A concrete probe record pointing at `demoHeap`'s cells, for the C4
witness. -/
def demoProbe : ProbeRecord :=
  { reachable := true, latenciesMs := some 1, warnings := some 0 }

/-- Witness for C4 at the concrete heap, state and probe record. -/
theorem updateProbe_roundtrip_witness :
    (∀ l ∈ stateLocs demoState, l < demoHeap.next) ∧
    (∀ l ∈ optLoc demoProbe.latenciesMs ++ optLoc demoProbe.warnings,
      l < demoHeap.next) ∧
    ((GetSnapshot (UpdateProbe demoHeap demoState demoProbe).2
        (UpdateProbe demoHeap demoState demoProbe).1).1.lastProbe.reachable =
      demoProbe.reachable ∧
     (GetSnapshot (UpdateProbe demoHeap demoState demoProbe).2
        (UpdateProbe demoHeap demoState demoProbe).1).1.lastProbe.socksOK =
      demoProbe.socksOK ∧
     (GetSnapshot (UpdateProbe demoHeap demoState demoProbe).2
        (UpdateProbe demoHeap demoState demoProbe).1).1.lastProbe.connectOK =
      demoProbe.connectOK ∧
     (GetSnapshot (UpdateProbe demoHeap demoState demoProbe).2
        (UpdateProbe demoHeap demoState demoProbe).1).1.lastProbe.udpOK =
      demoProbe.udpOK ∧
     (GetSnapshot (UpdateProbe demoHeap demoState demoProbe).2
        (UpdateProbe demoHeap demoState demoProbe).1).1.lastProbe.features =
      demoProbe.features ∧
     (GetSnapshot (UpdateProbe demoHeap demoState demoProbe).2
        (UpdateProbe demoHeap demoState demoProbe).1).1.lastProbe.lastChecked =
      demoProbe.lastChecked ∧
     (GetSnapshot (UpdateProbe demoHeap demoState demoProbe).2
        (UpdateProbe demoHeap demoState demoProbe).1).1.lastProbe.latenciesMs.isSome =
      true ∧
     readLat (GetSnapshot (UpdateProbe demoHeap demoState demoProbe).2
        (UpdateProbe demoHeap demoState demoProbe).1).2
       (GetSnapshot (UpdateProbe demoHeap demoState demoProbe).2
        (UpdateProbe demoHeap demoState demoProbe).1).1.lastProbe.latenciesMs =
      readLat demoHeap demoProbe.latenciesMs ∧
     readStr (GetSnapshot (UpdateProbe demoHeap demoState demoProbe).2
        (UpdateProbe demoHeap demoState demoProbe).1).2
       (GetSnapshot (UpdateProbe demoHeap demoState demoProbe).2
        (UpdateProbe demoHeap demoState demoProbe).1).1.lastProbe.warnings =
      readStr demoHeap demoProbe.warnings ∧
     (∀ l v, demoProbe.latenciesMs = some l →
       readLat (Heap.writeLat (UpdateProbe demoHeap demoState demoProbe).2 l v)
         (UpdateProbe demoHeap demoState demoProbe).1.lastProbe.latenciesMs =
       readLat (UpdateProbe demoHeap demoState demoProbe).2
         (UpdateProbe demoHeap demoState demoProbe).1.lastProbe.latenciesMs) ∧
     (∀ l v, demoProbe.warnings = some l →
       readStr (Heap.writeStr (UpdateProbe demoHeap demoState demoProbe).2 l v)
         (UpdateProbe demoHeap demoState demoProbe).1.lastProbe.warnings =
       readStr (UpdateProbe demoHeap demoState demoProbe).2
         (UpdateProbe demoHeap demoState demoProbe).1.lastProbe.warnings)) :=
  ⟨by decide, by decide,
    updateProbe_roundtrip demoHeap demoState demoProbe (by decide) (by decide)⟩

/-! ## Wire codec (`internal/probe/socks5.go`)

`encodeSocksAddress` depends on `strconv.Atoi` and `net.ParseIP`; both are
translated below following the Go standard library (`netip.ParseAddr` with
its IPv4 and IPv6 grammars, including embedded-IPv4 tails and the `::`
ellipsis; `ParseIP` always yields a 16-byte address, with plain IPv4
becoming the IPv4-mapped form, and `To4` recognizes the mapped prefix). -/

/-- Decimal-digit run parser backing `strconv.Atoi` (no overflow modelled:
for the port range check in this code the outcome is identical, since any
value Go would overflow on is also out of [1,65535]). -/
def parseDigits : List Char → Nat → Option Nat
  | [], acc => some acc
  | c :: cs, acc =>
    if c.isDigit then parseDigits cs (acc * 10 + (c.toNat - 48)) else none

/-- `strconv.Atoi`: optional sign, at least one digit, nothing else. -/
def goAtoi (s : String) : Option Int :=
  match s.data with
  | [] => none
  | '+' :: rest =>
    if rest = [] then none else (parseDigits rest 0).map (fun n => (n : Int))
  | '-' :: rest =>
    if rest = [] then none else (parseDigits rest 0).map (fun n => -(n : Int))
  | l => (parseDigits l 0).map (fun n => (n : Int))

/-- UTF-8 encoding of one character (Go strings are byte strings; `len` and
`append([]byte, s...)` see these bytes). -/
def utf8Bytes (c : Char) : List Nat :=
  let n := c.toNat
  if n < 0x80 then [n]
  else if n < 0x800 then [0xC0 + n / 64, 0x80 + n % 64]
  else if n < 0x10000 then [0xE0 + n / 4096, 0x80 + (n / 64) % 64, 0x80 + n % 64]
  else [0xF0 + n / 262144, 0x80 + (n / 4096) % 64, 0x80 + (n / 64) % 64, 0x80 + n % 64]

/-- The bytes of a Go string. -/
def strBytes (s : String) : List Nat :=
  s.data.flatMap utf8Bytes

/-- One step of Go's IPv4 field scanner (`parseIPv4Fields`): digits with a
leading-zero rejection, fields 0-255, exactly four dot-separated fields. -/
def v4Loop : List Char → Nat → Nat → List Nat → Option (List Nat)
  | [], val, digLen, fields =>
    if digLen = 0 then none
    else if fields.length = 3 then some (fields ++ [val])
    else none
  | c :: cs, val, digLen, fields =>
    if c.isDigit then
      if digLen = 1 ∧ val = 0 then none
      else
        let v := val * 10 + (c.toNat - 48)
        if v > 255 then none
        else v4Loop cs v (digLen + 1) fields
    else if c = '.' then
      if digLen = 0 then none
      else if fields.length = 3 then none
      else v4Loop cs 0 0 (fields ++ [val])
    else none

/-- Go's IPv4 literal parser: four decimal fields. -/
def parseV4 (s : List Char) : Option (List Nat) :=
  v4Loop s 0 0 []

def hexVal (c : Char) : Option Nat :=
  if '0' ≤ c ∧ c ≤ '9' then some (c.toNat - 48)
  else if 'a' ≤ c ∧ c ≤ 'f' then some (c.toNat - 87)
  else if 'A' ≤ c ∧ c ≤ 'F' then some (c.toNat - 55)
  else none

/-- Scan a hex field: accumulated value and number of digits consumed; a
value exceeding 0xFFFF is an error, as in `parseIPv6`. -/
def scanHex : List Char → Nat → Nat → Option (Nat × Nat)
  | [], acc, n => some (acc, n)
  | c :: cs, acc, n =>
    match hexVal c with
    | some d =>
      let a := acc * 16 + d
      if a > 0xFFFF then none
      else scanHex cs a (n + 1)
    | none => some (acc, n)

/-- Final assembly of an IPv6 address: expand the `::` ellipsis to zero
fields, requiring exactly 16 bytes overall and a nonempty expansion when an
ellipsis is present. -/
def v6Finish (acc : List Nat) (ell : Option Nat) : Option (List Nat) :=
  if acc.length = 16 then
    match ell with
    | none => some acc
    | some _ => none
  else
    match ell with
    | none => none
    | some e => some (acc.take e ++ List.replicate (16 - acc.length) 0 ++ acc.drop e)

/-- The main loop of Go's `parseIPv6`: hex fields separated by colons, one
optional `::`, and an optional embedded IPv4 tail filling the last 4 bytes.
`fuel` only bounds recursion; each iteration consumes input, so any fuel of
at least `s.length + 1` behaves like the Go loop. -/
def v6Loop : Nat → List Char → List Nat → Option Nat → Option (List Nat)
  | 0, _, _, _ => none
  | fuel + 1, s, acc, ell =>
    if acc.length ≥ 16 then
      if s = [] then v6Finish acc ell else none
    else
      match scanHex s 0 0 with
      | none => none
      | some (val, off) =>
        if off = 0 then none
        else
          match s.drop off with
          | '.' :: _ =>
            if ell = none ∧ acc.length ≠ 12 then none
            else if acc.length + 4 > 16 then none
            else
              match parseV4 s with
              | none => none
              | some ip4 => v6Finish (acc ++ ip4) ell
          | [] => v6Finish (acc ++ [val / 256, val % 256]) ell
          | ':' :: rest1 =>
            if rest1 = [] then none
            else
              match rest1 with
              | ':' :: rest2 =>
                if ell.isSome then none
                else
                  if rest2 = [] then
                    v6Finish (acc ++ [val / 256, val % 256])
                      (some (acc ++ [val / 256, val % 256]).length)
                  else
                    v6Loop fuel rest2 (acc ++ [val / 256, val % 256])
                      (some (acc ++ [val / 256, val % 256]).length)
              | _ => v6Loop fuel rest1 (acc ++ [val / 256, val % 256]) ell
          | _ => none

/-- Go's IPv6 literal parser (16 bytes); a leading `::` is special-cased as
in the source. Zones (`%`) are rejected, as `net.ParseIP` rejects any
address carrying a zone. -/
def parseV6 (s : List Char) : Option (List Nat) :=
  match s with
  | ':' :: ':' :: rest =>
    if rest = [] then some (List.replicate 16 0)
    else v6Loop (rest.length + 1) rest [] (some 0)
  | _ => v6Loop (s.length + 1) s [] none

/-- The first `.`, `:` or `%` decides how `netip.ParseAddr` parses. -/
def findSep : List Char → Option Char
  | [] => none
  | c :: cs => if c = '.' ∨ c = ':' ∨ c = '%' then some c else findSep cs

/-- A parsed IPv4 address as the 16-byte IPv4-mapped form (`Addr.As16`). -/
def v4To16 (b : List Nat) : List Nat :=
  [0, 0, 0, 0, 0, 0, 0, 0, 0, 0, 0xff, 0xff] ++ b

/-- `net.ParseIP`: always a 16-byte address on success, `none` on failure. -/
def parseIP (host : String) : Option (List Nat) :=
  match findSep host.data with
  | some '.' => (parseV4 host.data).map v4To16
  | some ':' => parseV6 host.data
  | _ => none

/-- `IP.To4` on a 16-byte address: the last 4 bytes if the address is
IPv4-mapped, else `none`. -/
def goTo4 (b : List Nat) : Option (List Nat) :=
  if b.take 12 = [0, 0, 0, 0, 0, 0, 0, 0, 0, 0, 0xff, 0xff] then some (b.drop 12)
  else none

/-- `encodeSocksAddress` from `socks5.go`: validate the port, then IP literal
(IPv4-mapped forms encode as IPv4) or domain name with a 1-byte length.
Returns `(ATYP, ADDR bytes, PORT bytes, was-IPv6)` or `none` on error. -/
def encodeSocksAddress (host port : String) :
    Option (Nat × List Nat × List Nat × Bool) :=
  match goAtoi port with
  | none => none
  | some pn =>
    if pn < 1 ∨ pn > 65535 then none
    else
      let p := pn.toNat
      let portBytes := [p / 256, p % 256]
      match parseIP host with
      | some ip =>
        match goTo4 ip with
        | some v4 => some (0x01, v4, portBytes, false)
        | none => some (0x04, ip, portBytes, true)
      | none =>
        let hb := strBytes host
        if hb.length = 0 ∨ hb.length > 255 then none
        else some (0x03, hb.length :: hb, portBytes, false)

/-! ## Claim C5: SOCKS5 address encoding -/

/-- C5 (amended): for a port accepted by validation, a host parsed by
`net.ParseIP` whose address is IPv4 or IPv4-mapped encodes as ATYP 0x01 with
the 4 address bytes; any other parsed IP literal encodes as ATYP 0x04 with
the 16 raw bytes (and marks the target IPv6); an unparsable host is a domain
name, ATYP 0x03 with a 1-byte length, where a byte length outside 1-255 is
an error; the port is always big-endian 16-bit. The three concrete examples
of the specification are included. -/
theorem encodeSocksAddress_spec (host port : String) (pn : Int)
    (hp : goAtoi port = some pn) (hp1 : 1 ≤ pn) (hp2 : pn ≤ 65535) :
    (∀ ip, parseIP host = some ip →
      (∀ v4, goTo4 ip = some v4 → encodeSocksAddress host port =
        some (0x01, v4, [pn.toNat / 256, pn.toNat % 256], false)) ∧
      (goTo4 ip = none → encodeSocksAddress host port =
        some (0x04, ip, [pn.toNat / 256, pn.toNat % 256], true))) ∧
    (parseIP host = none → 1 ≤ (strBytes host).length → (strBytes host).length ≤ 255 →
      encodeSocksAddress host port =
        some (0x03, (strBytes host).length :: strBytes host,
          [pn.toNat / 256, pn.toNat % 256], false)) ∧
    (parseIP host = none → ((strBytes host).length = 0 ∨ 255 < (strBytes host).length) →
      encodeSocksAddress host port = none) ∧
    encodeSocksAddress "127.0.0.1" "1080" =
      some (0x01, [127, 0, 0, 1], [0x04, 0x38], false) ∧
    encodeSocksAddress "::1" "1080" =
      some (0x04, [0, 0, 0, 0, 0, 0, 0, 0, 0, 0, 0, 0, 0, 0, 0, 1],
        [0x04, 0x38], true) ∧
    encodeSocksAddress "example.com" "80" =
      some (0x03, [11, 101, 120, 97, 109, 112, 108, 101, 46, 99, 111, 109],
        [0x00, 0x50], false) := by
  have hrange : ¬ (pn < 1 ∨ pn > 65535) := by omega
  refine ⟨?_, ?_, ?_, by decide, by decide, by decide⟩
  · intro ip hip
    constructor
    · intro v4 hv4
      simp only [encodeSocksAddress, hp, if_neg hrange, hip, hv4]
    · intro hv4
      simp only [encodeSocksAddress, hp, if_neg hrange, hip, hv4]
  · intro hip h1 h2
    have hlen : ¬ ((strBytes host).length = 0 ∨ (strBytes host).length > 255) := by
      omega
    simp only [encodeSocksAddress, hp, if_neg hrange, hip, if_neg hlen]
  · intro hip hlen
    have hlen' : (strBytes host).length = 0 ∨ (strBytes host).length > 255 := by
      omega
    simp only [encodeSocksAddress, hp, if_neg hrange, hip, if_pos hlen']

/-- Witness for C5 at the IPv4 example. -/
theorem encodeSocksAddress_spec_witness :
    goAtoi "1080" = some 1080 ∧ (1 : Int) ≤ 1080 ∧ (1080 : Int) ≤ 65535 ∧
    encodeSocksAddress "127.0.0.1" "1080" =
      some (0x01, [127, 0, 0, 1], [0x04, 0x38], false) :=
  ⟨by decide, by decide, by decide,
    (encodeSocksAddress_spec "127.0.0.1" "1080" 1080 (by decide) (by decide)
      (by decide)).2.2.2.1⟩

/-- Counterexample to C5 as stated: the IPv4-mapped IPv6 literal
"::ffff:1.2.3.4" is accepted by `net.ParseIP` and is written in IPv6 textual
form (it contains colons), yet the encoder emits ATYP 0x01 with the 4 IPv4
bytes, not ATYP 0x04 with 16 raw bytes. -/
theorem encodeSocksAddress_v4mapped_counterexample :
    (parseIP "::ffff:1.2.3.4").isSome = true ∧
    ':' ∈ "::ffff:1.2.3.4".data ∧
    encodeSocksAddress "::ffff:1.2.3.4" "80" =
      some (0x01, [1, 2, 3, 4], [0, 80], false) := by
  refine ⟨by decide, by decide, by decide⟩

/-! ## Probe engine (`internal/probe/socks5.go`)

The network is modelled by `NetEnv`: whether the TCP dial succeeds and the
byte stream the server will send on the accepted connection. Reads consume
that stream (`io.ReadFull` fails when it is exhausted); writes append to an
output trace. Latency values are not modelled (recorded as 0); the claims
concern which latency keys are present. `env.now` is the wall-clock time
stamped into `lastChecked` at return. -/

/-- `unicode.IsSpace` over the White_Space code points. -/
def goIsSpace (c : Char) : Bool :=
  c.toNat = 9 ∨ c.toNat = 10 ∨ c.toNat = 11 ∨ c.toNat = 12 ∨ c.toNat = 13 ∨
  c.toNat = 32 ∨ c.toNat = 0x85 ∨ c.toNat = 0xA0 ∨ c.toNat = 0x1680 ∨
  (0x2000 ≤ c.toNat ∧ c.toNat ≤ 0x200A) ∨ c.toNat = 0x2028 ∨ c.toNat = 0x2029 ∨
  c.toNat = 0x202F ∨ c.toNat = 0x205F ∨ c.toNat = 0x3000

/-- `strings.TrimSpace`. -/
def goTrim (s : String) : String :=
  String.mk (((s.data.dropWhile goIsSpace).reverse.dropWhile goIsSpace).reverse)

def firstIdxAux : List Char → Char → Nat → Option Nat
  | [], _, _ => none
  | x :: xs, c, i => if x = c then some i else firstIdxAux xs c (i + 1)

def lastIdxAux : List Char → Char → Nat → Option Nat → Option Nat
  | [], _, _, best => best
  | x :: xs, c, i, best => lastIdxAux xs c (i + 1) (if x = c then some i else best)

/-- `net.SplitHostPort`: split at the last colon, with `[...]` bracket
handling for IPv6 hosts and rejection of stray brackets/colons. -/
def splitHostPort (hp : List Char) : Option (List Char × List Char) :=
  match lastIdxAux hp ':' 0 none with
  | none => none
  | some i =>
    if hp.head? = some '[' then
      match firstIdxAux hp ']' 0 with
      | none => none
      | some endi =>
        if endi + 1 = hp.length then none
        else if endi + 1 = i then
          let host := (hp.drop 1).take (endi - 1)
          if (hp.drop 1).contains '[' then none
          else if (hp.drop (endi + 1)).contains ']' then none
          else some (host, hp.drop (i + 1))
        else none
    else
      let host := hp.take i
      if host.contains ':' then none
      else if hp.contains '[' then none
      else if hp.contains ']' then none
      else some (host, hp.drop (i + 1))

/-- `splitHostPortStrict` from `socks5.go`: `net.SplitHostPort`, then the
port must be numeric in [1,65535] and the host nonempty after trimming. -/
def splitHostPortStrict (s : String) : Option (String × String) :=
  match splitHostPort s.data with
  | none => none
  | some (host, port) =>
    match goAtoi (String.mk port) with
    | none => none
    | some n =>
      if n < 1 ∨ n > 65535 then none
      else if goTrim (String.mk host) = "" then none
      else some (String.mk host, String.mk port)

/-- One TCP connection: the unread server bytes and the written trace. -/
structure Conn where
  input : List Nat
  output : List Nat
deriving DecidableEq, Repr

/-- `io.ReadFull` of `n` bytes: fails when the server stream is exhausted. -/
def readN (c : Conn) (n : Nat) : Option (List Nat × Conn) :=
  if n ≤ c.input.length then
    some (c.input.take n, { c with input := c.input.drop n })
  else none

/-- A socket write (always succeeds in this model). -/
def writeBytes (c : Conn) (bs : List Nat) : Conn :=
  { c with output := c.output ++ bs }

/-- `Auth` from `socks5.go`. -/
structure PAuth where
  username : String
  password : String
deriving DecidableEq, Repr

/-- `Config` from `socks5.go`. The timeout only bounds wall-clock I/O and
does not influence the modelled control flow. -/
structure ProbeConfig where
  server : String
  timeout : Int := 0
  auth : Option PAuth := none
  connectTarget : String := ""
  udpTest : Bool := false
deriving DecidableEq, Repr

/-- `DefaultConnectTarget` from `socks5.go`. -/
def DefaultConnectTarget : String := "example.com:80"

/-- The connect target after the default is applied. -/
def resolveTarget (cfg : ProbeConfig) : String :=
  if goTrim cfg.connectTarget = "" then DefaultConnectTarget else cfg.connectTarget

/-- `core.ProbeSummary` as built by the probe itself (pure values; the
latency map is an insertion-ordered association list). -/
structure ProbeSummary where
  reachable : Bool := false
  socksOK : Bool := false
  connectOK : Bool := false
  udpOK : Bool := false
  latenciesMs : List (String × Nat) := []
  features : ProxyFeatures := {}
  lastChecked : Nat := 0
  warnings : List String := []
deriving DecidableEq, Repr

/-- `doUserPassAuth` from `socks5.go`: RFC 1929 subnegotiation; oversized
credentials fail before any write. -/
def doUserPassAuth (c : Conn) (a : PAuth) : Option String × Conn :=
  if (strBytes a.username).length > 255 ∨ (strBytes a.password).length > 255 then
    (some "username or password too long", c)
  else
    let c := writeBytes c ([0x01, (strBytes a.username).length] ++ strBytes a.username ++
      [(strBytes a.password).length] ++ strBytes a.password)
    match readN c 2 with
    | none => (some "read user-pass reply", c)
    | some (rep, c) =>
      if rep.getD 0 0 ≠ 0x01 then (some "unexpected user-pass reply version", c)
      else if rep.getD 1 0 ≠ 0x00 then (some "user-pass authentication failed", c)
      else (none, c)

/-- `doSocksGreeting` from `socks5.go`: offer no-auth (plus user/pass when
credentials are supplied), read the method selection, and react to the
chosen method. Returns (error?, selected method, connection). -/
def doSocksGreeting (c : Conn) (auth : Option PAuth) : Option String × Nat × Conn :=
  let methods := [0x00] ++ (if auth.isSome then [0x02] else [])
  let c := writeBytes c ([0x05, methods.length] ++ methods)
  match readN c 2 with
  | none => (some "read method selection", 0, c)
  | some (sel, c) =>
    if sel.getD 0 0 ≠ 0x05 then (some "unexpected version in method selection", 0, c)
    else
      let m := sel.getD 1 0
      if m = 0x00 then (none, m, c)
      else if m = 0x02 then
        match auth with
        | none => (some "proxy requires username-password but none provided", m, c)
        | some a =>
          match doUserPassAuth c a with
          | (none, c) => (none, m, c)
          | (some e, c) => (some e, m, c)
      else if m = 0xFF then (some "proxy rejected offered methods", m, c)
      else (some "unsupported method selected by proxy", m, c)

/-- `repToString` from `socks5.go`. -/
def repToString (rep : Nat) : String :=
  if rep = 0x00 then "succeeded"
  else if rep = 0x01 then "general SOCKS server failure"
  else if rep = 0x02 then "connection not allowed by ruleset"
  else if rep = 0x03 then "network unreachable"
  else if rep = 0x04 then "host unreachable"
  else if rep = 0x05 then "connection refused by destination host"
  else if rep = 0x06 then "TTL expired"
  else if rep = 0x07 then "command not supported"
  else if rep = 0x08 then "address type not supported"
  else "unknown reply code"

/-- `discardReplyBindAddr` from `socks5.go`: consume BND.ADDR/BND.PORT by
ATYP; a zero-length domain in the reply is an error. -/
def discardReplyBindAddr (c : Conn) (atyp : Nat) : Option String × Conn :=
  if atyp = 0x01 then
    match readN c 6 with
    | none => (some "read bind addr", c)
    | some (_, c) => (none, c)
  else if atyp = 0x04 then
    match readN c 18 with
    | none => (some "read bind addr", c)
    | some (_, c) => (none, c)
  else if atyp = 0x03 then
    match readN c 1 with
    | none => (some "read bind addr", c)
    | some (l, c) =>
      let n := l.getD 0 0 + 2
      if n = 2 then (some "invalid domain length in reply", c)
      else
        match readN c n with
        | none => (some "read bind addr", c)
        | some (_, c) => (none, c)
  else (some "unknown reply ATYP", c)

/-- `doUDPAssociate` from `socks5.go`: minimal associate request; returns
(success, warning, connection), never an error. -/
def doUDPAssociate (c : Conn) : Bool × String × Conn :=
  let c := writeBytes c [0x05, 0x03, 0x00, 0x01, 0, 0, 0, 0, 0, 0]
  match readN c 4 with
  | none => (false, "read UDP ASSOCIATE reply header failed", c)
  | some (hdr, c) =>
    if hdr.getD 0 0 ≠ 0x05 then (false, "unexpected UDP ASSOCIATE reply version", c)
    else if hdr.getD 1 0 ≠ 0x00 then
      (false, "udp associate failed: " ++ repToString (hdr.getD 1 0), c)
    else
      match discardReplyBindAddr c (hdr.getD 3 0) with
      | (some e, c) => (false, "read UDP ASSOCIATE bind addr failed: " ++ e, c)
      | (none, c) => (true, "", c)

/-- The network environment of one probe run. -/
structure NetEnv where
  dialOK : Bool := true
  serverBytes : List Nat := []
  now : Nat := 0
deriving DecidableEq, Repr

/-- The deferred block of `ProbeSOCKS`: stamp the collected latencies,
warnings and `lastChecked` into the summary on every return path. -/
def finishSummary (s : ProbeSummary) (lat : List (String × Nat))
    (warns : List String) (now : Nat) (e : Option String) :
    ProbeSummary × Option String :=
  ({ s with latenciesMs := lat, warnings := warns, lastChecked := now }, e)

/-- `ProbeSOCKS` from `socks5.go`: validate, dial, greet/authenticate,
CONNECT, optionally UDP-ASSOCIATE; every path returns a populated summary. -/
def ProbeSOCKS (env : NetEnv) (cfg : ProbeConfig) : ProbeSummary × Option String :=
  let s0 : ProbeSummary := {}
  match splitHostPortStrict cfg.server with
  | none => finishSummary s0 [] [] env.now (some "invalid socks server")
  | some _ =>
    match splitHostPortStrict (resolveTarget cfg) with
    | none => finishSummary s0 [] [] env.now (some "invalid connect target")
    | some (thost, tport) =>
      let lat1 := [("tcp_connect", 0)]
      if env.dialOK = false then
        finishSummary s0 lat1 ["tcp connect failed"] env.now (some "dial failed")
      else
        let s1 := { s0 with reachable := true }
        let c0 : Conn := { input := env.serverBytes, output := [] }
        match doSocksGreeting c0 cfg.auth with
        | (some e, _, _) =>
          finishSummary s1 (lat1 ++ [("socks_handshake", 0)])
            ["socks handshake failed: " ++ e] env.now (some e)
        | (none, m, c1) =>
          let lat2 := lat1 ++ [("socks_handshake", 0)]
          let s2 := { s1 with socksOK := true }
          let s3 :=
            if m = 0x00 then { s2 with features := { s2.features with auth := "none" } }
            else if m = 0x02 then
              { s2 with features := { s2.features with auth := "userpass" } }
            else s2
          let w0 : List String :=
            if m = 0x00 ∨ m = 0x02 then [] else ["unexpected method selected"]
          match encodeSocksAddress thost tport with
          | none =>
            finishSummary s3 lat2 (w0 ++ ["invalid connect target encoding"]) env.now
              (some "invalid connect target encoding")
          | some (atyp, addrB, portB, ipv6T) =>
            let c2 := writeBytes c1 ([0x05, 0x01, 0x00, atyp] ++ addrB ++ portB)
            match readN c2 4 with
            | none =>
              finishSummary s3 lat2 (w0 ++ ["read CONNECT reply header failed"]) env.now
                (some "read CONNECT reply header failed")
            | some (hdr, c3) =>
              if hdr.getD 0 0 ≠ 0x05 then
                finishSummary s3 lat2 (w0 ++ ["unexpected reply version"]) env.now
                  (some "bad connect reply version")
              else if hdr.getD 1 0 ≠ 0x00 then
                finishSummary s3 (lat2 ++ [("connect", 0)])
                  (w0 ++ ["connect failed: " ++ repToString (hdr.getD 1 0)]) env.now
                  (some ("socks connect failed: " ++ repToString (hdr.getD 1 0)))
              else
                match discardReplyBindAddr c3 (hdr.getD 3 0) with
                | (some e, _) =>
                  finishSummary s3 lat2 (w0 ++ ["read CONNECT reply addr failed"])
                    env.now (some e)
                | (none, c4) =>
                  let lat3 := lat2 ++ [("connect", 0)]
                  let s4 :=
                    { s3 with
                      connectOK := true
                      features := { s3.features with ipv6 := ipv6T } }
                  if cfg.udpTest then
                    match doUDPAssociate c4 with
                    | (ok, w, _) =>
                      finishSummary { s4 with udpOK := ok }
                        (lat3 ++ [("udp_associate", 0)])
                        (if w ≠ "" then w0 ++ [w] else w0) env.now none
                  else finishSummary s4 lat3 w0 env.now none

/-! ## Claim C9: `features.udp` is reserved and never set -/

/-- C9: on every input and server behavior, the returned summary has
`features.udp = false` — a UDP-ASSOCIATE success only sets `udpOK`. -/
theorem features_udp_always_false (env : NetEnv) (cfg : ProbeConfig) :
    (ProbeSOCKS env cfg).1.features.udp = false ∧
    ((ProbeSOCKS env cfg).1.udpOK = true →
      (ProbeSOCKS env cfg).1.features.udp = false) := by
  refine ⟨?_, fun _ => ?_⟩ <;>
  · simp only [ProbeSOCKS]
    repeat' split
    all_goals rfl

/-! ## Claim C7: UDP-ASSOCIATE is best-effort -/

theorem append_ne_empty_left (a b : String) (h : a.length ≠ 0) : a ++ b ≠ "" := by
  intro he
  have hl := congrArg String.length he
  rw [String.length_append] at hl
  have h0 : ("" : String).length = 0 := rfl
  rw [h0] at hl
  omega

/-- `doUDPAssociate` reports a nonempty warning whenever it fails. -/
theorem doUDPAssociate_false_warn (c : Conn) :
    (doUDPAssociate c).1 = false → (doUDPAssociate c).2.1 ≠ "" := by
  simp only [doUDPAssociate]
  rcases h4 : readN (writeBytes c [5, 3, 0, 1, 0, 0, 0, 0, 0, 0]) 4 with _ | ⟨hdr, c1⟩ <;>
    simp only [h4]
  · intro _
    show "read UDP ASSOCIATE reply header failed" ≠ ""
    decide
  · by_cases hv : hdr.getD 0 0 ≠ 5
    · rw [if_pos hv]
      intro _
      show "unexpected UDP ASSOCIATE reply version" ≠ ""
      decide
    · rw [if_neg hv]
      by_cases hr : hdr.getD 1 0 ≠ 0
      · rw [if_pos hr]
        intro _
        exact append_ne_empty_left _ _ (by decide)
      · rw [if_neg hr]
        rcases hd : discardReplyBindAddr c1 (hdr.getD 3 0) with ⟨oe, c2⟩
        cases oe with
        | some e =>
          intro _
          exact append_ne_empty_left _ _ (by decide)
        | none =>
          intro hfail
          simp at hfail

/-- With no credentials offered, a successful greeting negotiated method 0. -/
theorem doSocksGreeting_none_ok (c : Conn) (m : Nat) (c1 : Conn)
    (h : doSocksGreeting c none = (none, m, c1)) : m = 0 := by
  simp only [doSocksGreeting] at h
  repeat' split at h
  all_goals simp_all

/-- C7: against a reachable server at "127.0.0.1:1080" probing the default
connect target, the "udp_associate" latency key is present exactly when the
UDP test was requested and every earlier step succeeded (witnessed by
`connectOK`); once CONNECT succeeded the overall error is nil regardless of
the UDP outcome; and a failed UDP-ASSOCIATE (udpOK = false when the step ran)
appends a warning. -/
theorem udp_best_effort (d u : Bool) (bs : List Nat) (now : Nat) :
    (("udp_associate" ∈ ((ProbeSOCKS ⟨d, bs, now⟩
        { server := "127.0.0.1:1080", udpTest := u }).1.latenciesMs.map Prod.fst)) ↔
      (u = true ∧ (ProbeSOCKS ⟨d, bs, now⟩
        { server := "127.0.0.1:1080", udpTest := u }).1.connectOK = true)) ∧
    ((ProbeSOCKS ⟨d, bs, now⟩
        { server := "127.0.0.1:1080", udpTest := u }).1.connectOK = true →
      (ProbeSOCKS ⟨d, bs, now⟩ { server := "127.0.0.1:1080", udpTest := u }).2 = none) ∧
    ((ProbeSOCKS ⟨d, bs, now⟩
        { server := "127.0.0.1:1080", udpTest := u }).1.connectOK = true →
      (ProbeSOCKS ⟨d, bs, now⟩
        { server := "127.0.0.1:1080", udpTest := u }).1.udpOK = false →
      u = true →
      0 < (ProbeSOCKS ⟨d, bs, now⟩
        { server := "127.0.0.1:1080", udpTest := u }).1.warnings.length) := by
  have hs : splitHostPortStrict "127.0.0.1:1080" = some ("127.0.0.1", "1080") := by
    decide
  have ht : splitHostPortStrict DefaultConnectTarget = some ("example.com", "80") := by
    decide
  have he : encodeSocksAddress "example.com" "80" =
      some (3, [11, 101, 120, 97, 109, 112, 108, 101, 46, 99, 111, 109],
        [0, 80], false) := by decide
  have hr : resolveTarget { server := "127.0.0.1:1080", udpTest := u } =
      DefaultConnectTarget := rfl
  simp only [ProbeSOCKS, hr, hs, ht, he]
  cases d with
  | false => simp [finishSummary]
  | true =>
    repeat' split
    all_goals try simp_all [finishSummary]
    all_goals
      (by_contra hok
       exact doUDPAssociate_false_warn _ (by simpa using hok) (by assumption))

/-- Witness for C7: reachable server, UDP test requested, server fails the
UDP-ASSOCIATE step with reply code 1 after a successful CONNECT. -/
theorem udp_best_effort_witness :
    (("udp_associate" ∈ ((ProbeSOCKS ⟨true,
        [5, 0] ++ [5, 0, 0, 1] ++ [9, 9, 9, 9, 0, 80] ++ [5, 1, 0, 1] ++
          [1, 2, 3, 4, 0, 99], 42⟩
        { server := "127.0.0.1:1080", udpTest := true }).1.latenciesMs.map Prod.fst)) ↔
      (true = true ∧ (ProbeSOCKS ⟨true,
        [5, 0] ++ [5, 0, 0, 1] ++ [9, 9, 9, 9, 0, 80] ++ [5, 1, 0, 1] ++
          [1, 2, 3, 4, 0, 99], 42⟩
        { server := "127.0.0.1:1080", udpTest := true }).1.connectOK = true)) ∧
    ((ProbeSOCKS ⟨true,
        [5, 0] ++ [5, 0, 0, 1] ++ [9, 9, 9, 9, 0, 80] ++ [5, 1, 0, 1] ++
          [1, 2, 3, 4, 0, 99], 42⟩
        { server := "127.0.0.1:1080", udpTest := true }).1.connectOK = true →
      (ProbeSOCKS ⟨true,
        [5, 0] ++ [5, 0, 0, 1] ++ [9, 9, 9, 9, 0, 80] ++ [5, 1, 0, 1] ++
          [1, 2, 3, 4, 0, 99], 42⟩
        { server := "127.0.0.1:1080", udpTest := true }).2 = none) ∧
    ((ProbeSOCKS ⟨true,
        [5, 0] ++ [5, 0, 0, 1] ++ [9, 9, 9, 9, 0, 80] ++ [5, 1, 0, 1] ++
          [1, 2, 3, 4, 0, 99], 42⟩
        { server := "127.0.0.1:1080", udpTest := true }).1.connectOK = true →
      (ProbeSOCKS ⟨true,
        [5, 0] ++ [5, 0, 0, 1] ++ [9, 9, 9, 9, 0, 80] ++ [5, 1, 0, 1] ++
          [1, 2, 3, 4, 0, 99], 42⟩
        { server := "127.0.0.1:1080", udpTest := true }).1.udpOK = false →
      true = true →
      0 < (ProbeSOCKS ⟨true,
        [5, 0] ++ [5, 0, 0, 1] ++ [9, 9, 9, 9, 0, 80] ++ [5, 1, 0, 1] ++
          [1, 2, 3, 4, 0, 99], 42⟩
        { server := "127.0.0.1:1080", udpTest := true }).1.warnings.length) :=
  udp_best_effort true true
    ([5, 0] ++ [5, 0, 0, 1] ++ [9, 9, 9, 9, 0, 80] ++ [5, 1, 0, 1] ++
      [1, 2, 3, 4, 0, 99]) 42

theorem readN_two (a b : Nat) (r o : List Nat) :
    readN ⟨a :: b :: r, o⟩ 2 = some ([a, b], ⟨r, o⟩) := by
  simp [readN]

set_option maxRecDepth 8000 in
set_option maxHeartbeats 2000000 in
/-- C6: in the greeting/auth step against a reachable server: method 0x00
succeeds regardless of credentials and records `features.auth = "none"`;
method 0x02 with credentials performs RFC-1929 user/pass (success exactly
when the 2-byte reply is version 0x01 with status 0x00, recording
`features.auth = "userpass"`; credentials over 255 bytes are rejected before
any write); and method 0x02 without credentials, 0xFF, or any other method
byte is a hard failure: non-nil error, `reachable = true`,
`socksOK = false`, the "tcp_connect" and "socks_handshake" latency keys
present and "connect" absent. -/
theorem greeting_auth_spec (auth : Option PAuth) (rest : List Nat) (now : Nat) :
    ((ProbeSOCKS ⟨true, 5 :: 0 :: rest, now⟩
        { server := "127.0.0.1:1080", auth := auth }).1.socksOK = true ∧
     (ProbeSOCKS ⟨true, 5 :: 0 :: rest, now⟩
        { server := "127.0.0.1:1080", auth := auth }).1.features.auth = "none") ∧
    (∀ a, auth = some a → (strBytes a.username).length ≤ 255 →
      (strBytes a.password).length ≤ 255 →
      (((ProbeSOCKS ⟨true, 5 :: 2 :: rest, now⟩
          { server := "127.0.0.1:1080", auth := auth }).1.socksOK = true) ↔
        (∃ r, rest = 1 :: 0 :: r)) ∧
      ((∃ r, rest = 1 :: 0 :: r) →
        (ProbeSOCKS ⟨true, 5 :: 2 :: rest, now⟩
          { server := "127.0.0.1:1080", auth := auth }).1.features.auth = "userpass")) ∧
    (∀ c a, (strBytes a.username).length > 255 ∨ (strBytes a.password).length > 255 →
      (doUserPassAuth c a).1.isSome = true ∧ (doUserPassAuth c a).2 = c) ∧
    (∀ m, ((m = 2 ∧ auth = none) ∨ m = 255 ∨ (m ≠ 0 ∧ m ≠ 2 ∧ m ≠ 255)) →
      (ProbeSOCKS ⟨true, 5 :: m :: rest, now⟩
        { server := "127.0.0.1:1080", auth := auth }).2.isSome = true ∧
      (ProbeSOCKS ⟨true, 5 :: m :: rest, now⟩
        { server := "127.0.0.1:1080", auth := auth }).1.reachable = true ∧
      (ProbeSOCKS ⟨true, 5 :: m :: rest, now⟩
        { server := "127.0.0.1:1080", auth := auth }).1.socksOK = false ∧
      "tcp_connect" ∈ ((ProbeSOCKS ⟨true, 5 :: m :: rest, now⟩
        { server := "127.0.0.1:1080", auth := auth }).1.latenciesMs.map Prod.fst) ∧
      "socks_handshake" ∈ ((ProbeSOCKS ⟨true, 5 :: m :: rest, now⟩
        { server := "127.0.0.1:1080", auth := auth }).1.latenciesMs.map Prod.fst) ∧
      "connect" ∉ ((ProbeSOCKS ⟨true, 5 :: m :: rest, now⟩
        { server := "127.0.0.1:1080", auth := auth }).1.latenciesMs.map Prod.fst)) := by
  have hs : splitHostPortStrict "127.0.0.1:1080" = some ("127.0.0.1", "1080") := by
    decide
  have ht : splitHostPortStrict DefaultConnectTarget = some ("example.com", "80") := by
    decide
  have he : encodeSocksAddress "example.com" "80" =
      some (3, [11, 101, 120, 97, 109, 112, 108, 101, 46, 99, 111, 109],
        [0, 80], false) := by decide
  have hr : resolveTarget { server := "127.0.0.1:1080", auth := auth } =
      DefaultConnectTarget := rfl
  refine ⟨?_, ?_, ?_, ?_⟩
  · simp only [ProbeSOCKS, hr, hs, ht, he]
    cases auth <;>
      simp only [doSocksGreeting, writeBytes, readN_two, Option.isSome] <;>
      (repeat' split) <;> simp_all [finishSummary]
  · intro a ha hu hp
    subst ha
    simp only [ProbeSOCKS, hr, hs, ht, he]
    simp only [doSocksGreeting, writeBytes, readN_two, Option.isSome]
    simp only [doUserPassAuth, if_neg (by omega :
      ¬ ((strBytes a.username).length > 255 ∨ (strBytes a.password).length > 255)),
      writeBytes]
    match rest with
    | [] =>
      constructor
      · simp [readN, finishSummary]
      · rintro ⟨r, h⟩
        cases h
    | [r0] =>
      constructor
      · simp [readN, finishSummary]
      · rintro ⟨r, h⟩
        cases h
    | r0 :: r1 :: rr =>
      rw [readN_two]
      by_cases h0 : r0 = 1
      · subst h0
        by_cases h1 : r1 = 0
        · subst h1
          constructor
          · constructor
            · intro _
              exact ⟨rr, rfl⟩
            · intro _
              repeat' split
              all_goals simp_all [finishSummary]
          · intro _
            repeat' split
            all_goals simp_all [finishSummary]
        · constructor
          · simp only [List.getD]
            constructor
            · intro hfalse
              simp [finishSummary, h1] at hfalse
            · rintro ⟨r, h⟩
              injection h with _ h'
              injection h' with h'' _
              exact absurd h'' h1
          · rintro ⟨r, h⟩
            injection h with _ h'
            injection h' with h'' _
            exact absurd h'' h1
      · constructor
        · constructor
          · intro hfalse
            simp [finishSummary, h0] at hfalse
          · rintro ⟨r, h⟩
            injection h with h'' _
            exact absurd h'' h0
        · rintro ⟨r, h⟩
          injection h with h'' _
          exact absurd h'' h0
  · intro c a hlong
    simp [doUserPassAuth, if_pos hlong]
  · intro m hm
    rcases hm with ⟨hm2, hauth⟩ | hm | ⟨hm0, hm2, hmf⟩
    · subst hm2
      subst hauth
      simp only [ProbeSOCKS, hr, hs, ht, he]
      simp [doSocksGreeting, writeBytes, readN_two, finishSummary]
    · subst hm
      cases auth <;>
        (simp only [ProbeSOCKS, hr, hs, ht, he]
         simp [doSocksGreeting, writeBytes, readN_two, finishSummary])
    · cases auth <;>
        (simp only [ProbeSOCKS, hr, hs, ht, he]
         simp [doSocksGreeting, writeBytes, readN_two, finishSummary, hm0, hm2, hmf])

/-- Witness for C6: a server selecting method 0x00, and one replying 0xFF. -/
theorem greeting_auth_spec_witness :
    (ProbeSOCKS ⟨true, [5, 0], 0⟩ { server := "127.0.0.1:1080" }).1.socksOK = true ∧
    (ProbeSOCKS ⟨true, [5, 255], 0⟩ { server := "127.0.0.1:1080" }).2.isSome = true :=
  ⟨(greeting_auth_spec none [] 0).1.1,
   ((greeting_auth_spec none [] 0).2.2.2 255 (Or.inr (Or.inl rfl))).1⟩

set_option maxRecDepth 8000 in
set_option maxHeartbeats 2000000 in
/-- C8: on every execution path (validation failure, dial failure, greeting
failure, CONNECT failure — transport or protocol — and full success) the
returned summary is populated: `lastChecked` is stamped with the return-time
clock on every path; the "tcp_connect" key is present exactly when
validation passed (the dial was attempted); the latency keys form a prefix
chain following the steps reached ("socks_handshake" implies "tcp_connect",
"connect" implies "socks_handshake", "udp_associate" implies "connect" and a
requested UDP test); and a validation failure carries no latencies or
warnings. The summary is returned alongside the error on every path by
construction. -/
theorem probe_summary_populated (env : NetEnv) (cfg : ProbeConfig) :
    (ProbeSOCKS env cfg).1.lastChecked = env.now ∧
    (("tcp_connect" ∈ (ProbeSOCKS env cfg).1.latenciesMs.map Prod.fst) ↔
      ((splitHostPortStrict cfg.server).isSome = true ∧
       (splitHostPortStrict (resolveTarget cfg)).isSome = true)) ∧
    ("socks_handshake" ∈ (ProbeSOCKS env cfg).1.latenciesMs.map Prod.fst →
      "tcp_connect" ∈ (ProbeSOCKS env cfg).1.latenciesMs.map Prod.fst) ∧
    ("connect" ∈ (ProbeSOCKS env cfg).1.latenciesMs.map Prod.fst →
      "socks_handshake" ∈ (ProbeSOCKS env cfg).1.latenciesMs.map Prod.fst) ∧
    ("udp_associate" ∈ (ProbeSOCKS env cfg).1.latenciesMs.map Prod.fst →
      ("connect" ∈ (ProbeSOCKS env cfg).1.latenciesMs.map Prod.fst ∧
       cfg.udpTest = true)) ∧
    (¬ ((splitHostPortStrict cfg.server).isSome = true ∧
        (splitHostPortStrict (resolveTarget cfg)).isSome = true) →
      (ProbeSOCKS env cfg).1.latenciesMs = [] ∧ (ProbeSOCKS env cfg).1.warnings = [])
    := by
  simp only [ProbeSOCKS]
  repeat' split
  all_goals simp_all [finishSummary]

/-- Witness for C8 at a concrete run. -/
theorem probe_summary_populated_witness :
    (ProbeSOCKS ⟨true, [5, 0], 42⟩ { server := "127.0.0.1:1080" }).1.lastChecked = 42 :=
  (probe_summary_populated ⟨true, [5, 0], 42⟩ { server := "127.0.0.1:1080" }).1

end PacketLogger
